import Mathlib

/-!
Verification of the bugbug HTTP-service model pipeline
(`src/http_service/models.py`): the artifact cache (`retrieve_model`),
the registry glue (`load_model`) and the classification pipeline
(`classify_bug`), embedded shallowly as pure Lean functions with explicit
filesystem state and an event trace for the side effects.
-/

namespace BugbugHttp

/-- Records fetched from the external record source are opaque to the
pipeline: it only passes them to the predictor. -/
abbrev Record := Nat

/-- File contents, modelled as a list of bytes. -/
abbrev Bytes := List Nat

/-- JSON values, as produced by `json.dumps` on the Python dictionaries the
service builds.  Numbers coming from the probability arrays are modelled as
rationals, integer-valued numbers (argmax indexes) as integers. -/
inductive Json where
  | null : Json
  | bool (b : Bool) : Json
  | int (n : Int) : Json
  | num (q : ℚ) : Json
  | str (s : String) : Json
  | arr (elems : List Json) : Json
  | obj (fields : List (String × Json)) : Json

/-- True exactly on JSON arrays, i.e. on values serialized as sequences. -/
def Json.isArr : Json → Bool
  | Json.arr _ => true
  | _ => false

/-- Field lookup in a JSON object. -/
def Json.field (j : Json) (k : String) : Option Json :=
  match j with
  | Json.obj fields => fields.lookup k
  | _ => none

/-- Error conditions of the subsystem (the spec's taxonomy §7).
`unknownModel` is the `KeyError` raised by the `MODELS[model]` lookup,
`remoteUnavailable` the `requests` failure raised by `raise_for_status`,
`artifactCorrupt` the `lzma` decompression failure, and `modelLoadFailed`
a failure of the registered handler's `load`. -/
inductive Err where
  | unknownModel : Err
  | remoteUnavailable : Err
  | artifactCorrupt : Err
  | modelLoadFailed : Err
deriving DecidableEq

/-- Observable side effects of the two entry points, in program order:
the Bugzilla token assignment, the record fetch, the HTTP HEAD fingerprint
query, the artifact download, the decompression, the fingerprint write,
the model load, the inference call, and the two result-store operations
(`redis.set` and `redis.expire`). -/
inductive Ev where
  | setToken (tok : String) : Ev
  | fetchBugs (bugId : Int) : Ev
  | headRequest (url : String) : Ev
  | download (url : String) : Ev
  | decompress : Ev
  | writeEtag (etag : String) : Ev
  | loadModel (name : String) : Ev
  | infer (batchSize : Nat) : Ev
  | storeSet (key : String) (value : Json) : Ev
  | storeExpire (key : String) (seconds : Nat) : Ev

/-- The registered model names, the keys of the `MODELS` dictionary. -/
def MODELS_NAMES : List String :=
  ["defectenhancementtask", "component", "regression"]

/-- The local artifact directory (`MODELS_DIR`); the leading
`os.path.dirname(__file__)` component is irrelevant to the claims. -/
def MODELS_DIR : String := "models"

/-- The remote artifact index base location (`BASE_URL`). -/
def BASE_URL : String :=
  "https://index.taskcluster.net/v1/task/project.releng.services.project.testing.bugbug_train.latest/artifacts/public"

/-- The artifact file name `f"\x7bname\x7dmodel"`. -/
def file_name (name : String) : String := name ++ "model"

/-- The final local artifact path `os.path.join(MODELS_DIR, file_name)`. -/
def file_path (name : String) : String := MODELS_DIR ++ "/" ++ file_name name

/-- The remote artifact URL `f"\x7bBASE_URL\x7d/\x7bfile_name\x7d.xz"`. -/
def model_url (name : String) : String :=
  BASE_URL ++ "/" ++ file_name name ++ ".xz"

/-- The local filesystem state touched by `retrieve_model` for one model:
the decompressed artifact at `file_path`, the fingerprint record at
`file_path ++ ".etag"`, and the compressed download at
`file_path ++ ".xz"`.  `none` means the file does not exist. -/
structure FS where
  artifact : Option Bytes
  etagFile : Option String
  xzFile : Option Bytes
deriving DecidableEq

/-- The remote artifact source as observed during one resolve call: the
ETag answered by the HEAD request, the compressed content served for the
download, and whether the HEAD request succeeds (`raise_for_status`). -/
structure Remote where
  etag : String
  compressed : Bytes
  available : Bool
deriving DecidableEq

/-- Outcome of decompressing a compressed artifact.  `lzma` streams through
`shutil.copyfileobj`, so a mid-way failure leaves on disk exactly the bytes
flushed before the error: `fail written` records that flushed content. -/
inductive DecompResult where
  | ok (content : Bytes) : DecompResult
  | fail (written : Bytes) : DecompResult
deriving DecidableEq

/-- Shallow embedding of `retrieve_model(name)`.  `decomp` abstracts the
`lzma` decompressor (external library).  Faithful to the source order:
HEAD request and `raise_for_status`; read of the `.etag` file with
`IOError` mapped to `None`; on fingerprint mismatch, `urlretrieve` into
the `.xz` path, decompression opened directly onto the final path
(`open(file_path, "wb")`, truncating it before any bytes are written),
and only after a successful decompression the `.etag` write.  Returns the
Python return value, the post filesystem state and the event trace. -/
def retrieve_model (decomp : Bytes → DecompResult) (remote : Remote)
    (name : String) (fs : FS) : Except Err String × FS × List Ev :=
  if remote.available = true then
    if fs.etagFile = some remote.etag then
      (Except.ok (file_path name), fs, [Ev.headRequest (model_url name)])
    else
      match decomp remote.compressed with
      | DecompResult.ok content =>
        (Except.ok (file_path name),
         { artifact := some content, etagFile := some remote.etag,
           xzFile := some remote.compressed },
         [Ev.headRequest (model_url name), Ev.download (model_url name),
          Ev.decompress, Ev.writeEtag remote.etag])
      | DecompResult.fail written =>
        (Except.error Err.artifactCorrupt,
         { artifact := some written, etagFile := fs.etagFile,
           xzFile := some remote.compressed },
         [Ev.headRequest (model_url name), Ev.download (model_url name),
          Ev.decompress])
  else
    (Except.error Err.remoteUnavailable, fs, [Ev.headRequest (model_url name)])

/-- Helper of `argmaxIdx`: fold keeping the index of the first maximum seen
so far, matching `numpy.argmax` (first occurrence wins on ties). -/
def argmaxAux (bestIdx : Nat) (bestVal : ℚ) (i : Nat) : List ℚ → Nat
  | [] => bestIdx
  | x :: xs =>
    if bestVal < x then argmaxAux i x (i + 1) xs
    else argmaxAux bestIdx bestVal (i + 1) xs

/-- Index of the first maximum of a row, i.e. `numpy.argmax` on one row of
the probability matrix (`axis=-1`). -/
def argmaxIdx : List ℚ → Nat
  | [] => 0
  | x :: xs => argmaxAux 0 x 1 xs

/-- Modelled from the spec: the in-memory predictor (`bugbug` model code is
not under `src/`).  `classifyProbs` is `model.classify(records, True)`,
returning, per the spec's ClassificationResult, one ordered row of
per-class probabilities for each record of the batch (`rowPerRecord`
records that contract); `label` is `model.clf._le.inverse_transform` on a
single class index. -/
structure Predictor where
  classifyProbs : List Record → List (List ℚ)
  label : Nat → String
  rowPerRecord : ∀ l, (classifyProbs l).length = l.length

/-- The external collaborators of one `classify_bug` invocation: the record
list returned by `bugzilla._download(bug_id).values()` and the behaviour of
the registered handler's `load` (`MODELS[name].load`), which may fail with
a deserialization error. -/
structure ClassifyEnv where
  bugs : List Record
  backend : String → Except Err Predictor

/-- Shallow embedding of `load_model(model)`: the `MODELS[model]` lookup
raises `KeyError` (`unknownModel`) for an unregistered name, then the
registered handler loads the file at the local path. -/
def load_model (backend : String → Except Err Predictor) (model : String) :
    Except Err Predictor :=
  if model ∈ MODELS_NAMES then backend model else Except.error Err.unknownModel

/-- The result-store key `f"result_\x7bmodel_name\x7d_\x7bbug_id\x7d"`. -/
def redis_key (model_name : String) (bug_id : Int) : String :=
  "result_" ++ model_name ++ "_" ++ toString bug_id

/-- Shallow embedding of `classify_bug(model_name, bug_id, bugzilla_token,
expiration=500)`.  Faithful to the source order: token set, record fetch,
empty-branch publish of `{"available": false}`; otherwise `load_model`,
inference over the full batch, argmax along the last axis, label decoding,
and the shaped payload in which `probs.tolist()[0]` is the first row (a
list) while `indexes.tolist()[0]` and `suggestions.tolist()[0]` index into
one-dimensional arrays and are therefore scalars; then `redis.set` and
`redis.expire`.  Returns the Python result and the event trace. -/
def classify_bug (env : ClassifyEnv) (model_name : String) (bug_id : Int)
    (bugzilla_token : String) (expiration : Nat := 500) :
    Except Err String × List Ev :=
  let key := redis_key model_name bug_id
  if env.bugs.isEmpty then
    (Except.ok "OK",
     [Ev.setToken bugzilla_token, Ev.fetchBugs bug_id,
      Ev.storeSet key (Json.obj [("available", Json.bool false)]),
      Ev.storeExpire key expiration])
  else
    match load_model env.backend model_name with
    | Except.error e =>
      (Except.error e,
       [Ev.setToken bugzilla_token, Ev.fetchBugs bug_id,
        Ev.loadModel model_name])
    | Except.ok model =>
      let probs := model.classifyProbs env.bugs
      let indexes := probs.map argmaxIdx
      let suggestions := indexes.map model.label
      let data := Json.obj
        [("probs", Json.arr ((probs.headD []).map Json.num)),
         ("indexes", Json.int (indexes.headD 0 : Nat)),
         ("suggestions", Json.str (suggestions.headD ""))]
      (Except.ok "OK",
       [Ev.setToken bugzilla_token, Ev.fetchBugs bug_id,
        Ev.loadModel model_name, Ev.infer env.bugs.length,
        Ev.storeSet key data, Ev.storeExpire key expiration])

/-- Events belonging to the artifact-resolution step (§4.1): the
fingerprint query, the download, the decompression and the fingerprint
write — everything `retrieve_model` does. -/
def isArtifactResolutionEv : Ev → Bool
  | Ev.headRequest _ => true
  | Ev.download _ => true
  | Ev.decompress => true
  | Ev.writeEtag _ => true
  | _ => false

/-- Download or decompression operations, the work a fingerprint hit must
skip. -/
def isDownloadOrDecompEv : Ev → Bool
  | Ev.download _ => true
  | Ev.decompress => true
  | _ => false

/-- Result-store writes (`redis.set` and `redis.expire`). -/
def isStoreWriteEv : Ev → Bool
  | Ev.storeSet _ _ => true
  | Ev.storeExpire _ _ => true
  | _ => false

/-- First value published via `redis.set` in a trace, if any. -/
def setValue? : List Ev → Option Json
  | [] => none
  | Ev.storeSet _ v :: _ => some v
  | _ :: es => setValue? es

/-- A decompressor that always succeeds, for concrete scenarios. -/
def dOk : Bytes → DecompResult := fun b => DecompResult.ok b

/-- A decompressor that fails immediately after truncating the output
file, leaving the single byte 42 on disk. -/
def dFail : Bytes → DecompResult := fun _ => DecompResult.fail [42]

/-- A remote serving ETag "v1". -/
def remA : Remote := { etag := "v1", compressed := [3, 1, 4], available := true }

/-- A fresh local state: no artifact, no fingerprint, no download. -/
def fsEmpty : FS := { artifact := none, etagFile := none, xzFile := none }

/-- A local state holding a previous artifact under fingerprint "etagA". -/
def fs0 : FS := { artifact := some [1, 2, 3], etagFile := some "etagA", xzFile := none }

/-- A remote whose fingerprint differs from `fs0`'s record. -/
def remB : Remote := { etag := "etagB", compressed := [9, 9], available := true }

/-- A concrete predictor matching the spec's scenario: every record gets
the probability row [0.1, 0.7, 0.2]; class index `i` decodes to label
`"label" ++ toString i`. -/
def demoPredictor : Predictor where
  classifyProbs l := l.map (fun _ => [(1 : ℚ)/10, (7 : ℚ)/10, (2 : ℚ)/10])
  label i := "label" ++ toString i
  rowPerRecord l := by simp

/-- A backend whose handlers all load `demoPredictor`. -/
def backendDemo : String → Except Err Predictor :=
  fun _ => Except.ok demoPredictor

/-- An environment where the record source returns no records. -/
def envEmpty : ClassifyEnv := { bugs := [], backend := backendDemo }

/-- An environment where the record source returns one record. -/
def envOne : ClassifyEnv := { bugs := [42], backend := backendDemo }

/-- An environment with one record whose model handler fails to load. -/
def envOneFail : ClassifyEnv :=
  { bugs := [7], backend := fun _ => Except.error Err.modelLoadFailed }

/-! Helper lemmas. -/

/-- A non-empty record list means `isEmpty` is `false` (the Python
`if not bugs` guard is not taken). -/
theorem isEmpty_false_of_ne_nil {α : Type} (l : List α) (h : l ≠ []) :
    l.isEmpty = false := by
  cases l with
  | nil => exact absurd rfl h
  | cons x xs => rfl

/-! Theorems for the claims. -/

/-- C5: if a `resolve(model_name)` call returns a path and the remote
fingerprint is unchanged, the immediately following call performs zero
download and zero decompression operations and returns the same path. -/
theorem second_resolve_no_redownload (decomp : Bytes → DecompResult)
    (remote : Remote) (name : String) (fs : FS) (p : String)
    (h1 : (retrieve_model decomp remote name fs).1 = Except.ok p) :
    (retrieve_model decomp remote name
        (retrieve_model decomp remote name fs).2.1).1 = Except.ok p
    ∧ (retrieve_model decomp remote name
        (retrieve_model decomp remote name fs).2.1).2.2.filter
        isDownloadOrDecompEv = [] := by
  by_cases ha : remote.available = true
  · by_cases he : fs.etagFile = some remote.etag
    · have hp : p = file_path name := by
        simp [retrieve_model, ha, he] at h1
        exact h1.symm
      subst hp
      simp [retrieve_model, ha, he, isDownloadOrDecompEv]
    · cases hd : decomp remote.compressed with
      | ok content =>
        have hp : p = file_path name := by
          simp [retrieve_model, ha, he, hd] at h1
          exact h1.symm
        subst hp
        simp [retrieve_model, ha, he, hd, isDownloadOrDecompEv]
      | fail written =>
        exfalso
        simp [retrieve_model, ha, he, hd] at h1
  · exfalso
    simp [retrieve_model, ha] at h1

/-- C5 witness: concrete run from a fresh local state against `remA`. -/
theorem second_resolve_no_redownload_witness :
    (retrieve_model dOk remA "regression"
        (retrieve_model dOk remA "regression" fsEmpty).2.1).1
      = Except.ok (file_path "regression")
    ∧ (retrieve_model dOk remA "regression"
        (retrieve_model dOk remA "regression" fsEmpty).2.1).2.2.filter
        isDownloadOrDecompEv = [] :=
  second_resolve_no_redownload dOk remA "regression" fsEmpty
    (file_path "regression") rfl

/-- C7: with a changed (or absent) local fingerprint, `resolve` performs
the download and the decompression; if decompression completes, the local
artifact is overwritten with the decompressed content and the local
fingerprint record equals the new remote fingerprint; if decompression
fails, the fingerprint record is unchanged (it is persisted only after
decompression has completed). -/
theorem resolve_changed_fingerprint_downloads (decomp : Bytes → DecompResult)
    (remote : Remote) (name : String) (fs : FS)
    (havail : remote.available = true)
    (hchanged : fs.etagFile ≠ some remote.etag) :
    (Ev.download (model_url name) ∈ (retrieve_model decomp remote name fs).2.2
     ∧ Ev.decompress ∈ (retrieve_model decomp remote name fs).2.2)
    ∧ (∀ content, decomp remote.compressed = DecompResult.ok content →
        (retrieve_model decomp remote name fs).2.1.artifact = some content
        ∧ (retrieve_model decomp remote name fs).2.1.etagFile
            = some remote.etag
        ∧ (retrieve_model decomp remote name fs).1
            = Except.ok (file_path name))
    ∧ (∀ written, decomp remote.compressed = DecompResult.fail written →
        (retrieve_model decomp remote name fs).2.1.etagFile
          = fs.etagFile) := by
  cases hd : decomp remote.compressed with
  | ok content =>
    refine ⟨?_, ?_, ?_⟩
    · simp [retrieve_model, havail, hchanged, hd]
    · intro c hc
      cases hc
      simp [retrieve_model, havail, hchanged, hd]
    · intro w hw
      cases hw
  | fail written =>
    refine ⟨?_, ?_, ?_⟩
    · simp [retrieve_model, havail, hchanged, hd]
    · intro c hc
      cases hc
    · intro w hw
      simp [retrieve_model, havail, hchanged, hd]

/-- C7 witness: first-ever resolution against `remA` (no local
fingerprint) with a successful decompressor. -/
theorem resolve_changed_fingerprint_downloads_witness :
    (Ev.download (model_url "defectenhancementtask")
        ∈ (retrieve_model dOk remA "defectenhancementtask" fsEmpty).2.2
     ∧ Ev.decompress
        ∈ (retrieve_model dOk remA "defectenhancementtask" fsEmpty).2.2)
    ∧ (∀ content, dOk remA.compressed = DecompResult.ok content →
        (retrieve_model dOk remA "defectenhancementtask" fsEmpty).2.1.artifact
          = some content
        ∧ (retrieve_model dOk remA "defectenhancementtask"
            fsEmpty).2.1.etagFile = some remA.etag
        ∧ (retrieve_model dOk remA "defectenhancementtask" fsEmpty).1
            = Except.ok (file_path "defectenhancementtask"))
    ∧ (∀ written, dOk remA.compressed = DecompResult.fail written →
        (retrieve_model dOk remA "defectenhancementtask"
          fsEmpty).2.1.etagFile = fsEmpty.etagFile) :=
  resolve_changed_fingerprint_downloads dOk remA "defectenhancementtask"
    fsEmpty rfl (by decide)

/-- C4 counterexample: with a concrete prior artifact [1, 2, 3] and a
decompressor failing after flushing the byte 42, the call fails with
`ArtifactCorrupt` but the local artifact file does not retain its
pre-call contents — the final path was truncated and partially
overwritten. -/
theorem decompression_failure_truncates_artifact_example :
    (retrieve_model dFail remB "regression" fs0).1
      = Except.error Err.artifactCorrupt
    ∧ (retrieve_model dFail remB "regression" fs0).2.1.artifact
        = some [42]
    ∧ (retrieve_model dFail remB "regression" fs0).2.1.artifact
        ≠ fs0.artifact := by
  refine ⟨rfl, by decide, by decide⟩

/-- C4 (amended): if decompression fails mid-way, the local fingerprint
record retains its pre-call contents, but the artifact file at the final
local path does not — it is truncated on open and left holding exactly the
bytes flushed before the failure. -/
theorem decompression_failure_keeps_fingerprint_only
    (decomp : Bytes → DecompResult) (remote : Remote) (name : String)
    (fs : FS) (written : Bytes) (havail : remote.available = true)
    (hchanged : fs.etagFile ≠ some remote.etag)
    (hfail : decomp remote.compressed = DecompResult.fail written) :
    (retrieve_model decomp remote name fs).1
      = Except.error Err.artifactCorrupt
    ∧ (retrieve_model decomp remote name fs).2.1.etagFile = fs.etagFile
    ∧ (retrieve_model decomp remote name fs).2.1.artifact = some written := by
  refine ⟨?_, ?_, ?_⟩ <;> simp [retrieve_model, havail, hchanged, hfail]

/-- C4 witness: the amended property at the concrete failing scenario. -/
theorem decompression_failure_keeps_fingerprint_only_witness :
    (retrieve_model dFail remB "component" fs0).1
      = Except.error Err.artifactCorrupt
    ∧ (retrieve_model dFail remB "component" fs0).2.1.etagFile
        = fs0.etagFile
    ∧ (retrieve_model dFail remB "component" fs0).2.1.artifact
        = some [42] :=
  decompression_failure_keeps_fingerprint_only dFail remB "component" fs0
    [42] rfl (by decide) rfl

/-- C10: after a resolve call that performs a download (changed
fingerprint), the compressed staging file holds the downloaded bytes and
remains on disk — and no resolve call ever deletes it. -/
theorem resolve_keeps_compressed_file (decomp : Bytes → DecompResult)
    (remote : Remote) (name : String) (fs : FS)
    (havail : remote.available = true)
    (hchanged : fs.etagFile ≠ some remote.etag) :
    (retrieve_model decomp remote name fs).2.1.xzFile
      = some remote.compressed
    ∧ ∀ fs2, (retrieve_model decomp remote name fs2).2.1.xzFile = none →
        fs2.xzFile = none := by
  constructor
  · cases hd : decomp remote.compressed <;>
      simp [retrieve_model, havail, hchanged, hd]
  · intro fs2 h
    by_cases ha : remote.available = true
    · by_cases he : fs2.etagFile = some remote.etag
      · simpa [retrieve_model, ha, he] using h
      · cases hd : decomp remote.compressed <;>
          simp [retrieve_model, ha, he, hd] at h
    · simpa [retrieve_model, ha] using h

/-- C10 witness: the concrete failed-decompression download against
`remB` keeps the compressed file on disk. -/
theorem resolve_keeps_compressed_file_witness :
    (retrieve_model dFail remB "regression" fs0).2.1.xzFile
      = some remB.compressed
    ∧ ∀ fs2, (retrieve_model dFail remB "regression" fs2).2.1.xzFile
        = none → fs2.xzFile = none :=
  resolve_keeps_compressed_file dFail remB "regression" fs0 rfl (by decide)

/-- C6: with zero records the pipeline publishes exactly
`{"available": false}` under the derived key with the configured ttl and
returns "OK"; the full trace shows no model load and no inference. -/
theorem classify_zero_records_publishes_unavailable (env : ClassifyEnv)
    (name : String) (id : Int) (tok : String) (exp : Nat)
    (h : env.bugs = []) :
    classify_bug env name id tok exp =
      (Except.ok "OK",
       [Ev.setToken tok, Ev.fetchBugs id,
        Ev.storeSet (redis_key name id)
          (Json.obj [("available", Json.bool false)]),
        Ev.storeExpire (redis_key name id) exp]) := by
  simp [classify_bug, h]

/-- C6 witness: the spec's concrete scenario, model "regression", record
12345, default ttl 500. -/
theorem classify_zero_records_publishes_unavailable_witness :
    classify_bug envEmpty "regression" 12345 "tok" 500 =
      (Except.ok "OK",
       [Ev.setToken "tok", Ev.fetchBugs 12345,
        Ev.storeSet (redis_key "regression" 12345)
          (Json.obj [("available", Json.bool false)]),
        Ev.storeExpire (redis_key "regression" 12345) 500]) :=
  classify_zero_records_publishes_unavailable envEmpty "regression" 12345
    "tok" 500 rfl

/-- C8: whichever of the two branches an invocation completes (zero
records, or records with a successful model load), it writes its result
under `result_\x7bmodel_name\x7d_\x7brecord_id\x7d`, sets the expiry to
the given ttl, and returns the "OK" sentinel; the ttl argument defaults
to 500. -/
theorem classify_writes_key_ttl_and_ok (env : ClassifyEnv) (name : String)
    (id : Int) (tok : String) (exp : Nat)
    (h : env.bugs = [] ∨ ∃ m, load_model env.backend name = Except.ok m) :
    (classify_bug env name id tok exp).1 = Except.ok "OK"
    ∧ (∃ v, Ev.storeSet (redis_key name id) v
        ∈ (classify_bug env name id tok exp).2)
    ∧ Ev.storeExpire (redis_key name id) exp
        ∈ (classify_bug env name id tok exp).2
    ∧ redis_key name id = "result_" ++ name ++ "_" ++ toString id
    ∧ classify_bug env name id tok = classify_bug env name id tok 500 := by
  refine ?_
  have hkey : redis_key name id = "result_" ++ name ++ "_" ++ toString id := by
    simp [redis_key]
  rcases h with h | ⟨m, hm⟩
  · refine ⟨?_, ⟨Json.obj [("available", Json.bool false)], ?_⟩, ?_, hkey, rfl⟩
      <;> simp [classify_bug, h]
  · by_cases hb : env.bugs.isEmpty
    · refine ⟨?_, ⟨Json.obj [("available", Json.bool false)], ?_⟩, ?_, hkey, rfl⟩
        <;> simp [classify_bug, hb]
    · refine ⟨?_, ⟨Json.obj
          [("probs",
            Json.arr (((m.classifyProbs env.bugs).headD []).map Json.num)),
           ("indexes",
            Json.int (((m.classifyProbs env.bugs).map argmaxIdx).headD 0 : Nat)),
           ("suggestions",
            Json.str ((((m.classifyProbs env.bugs).map argmaxIdx).map
              m.label).headD ""))], ?_⟩, ?_, hkey, rfl⟩
        <;> simp [classify_bug, hb, hm]

/-- C8 witness: the non-empty branch at model "component", record 67,
ttl 500, with the demo backend. -/
theorem classify_writes_key_ttl_and_ok_witness :
    (classify_bug envOne "component" 67 "tok" 500).1 = Except.ok "OK"
    ∧ (∃ v, Ev.storeSet (redis_key "component" 67) v
        ∈ (classify_bug envOne "component" 67 "tok" 500).2)
    ∧ Ev.storeExpire (redis_key "component" 67) 500
        ∈ (classify_bug envOne "component" 67 "tok" 500).2
    ∧ redis_key "component" 67 = "result_" ++ "component" ++ "_" ++ toString (67 : Int)
    ∧ classify_bug envOne "component" 67 "tok"
        = classify_bug envOne "component" 67 "tok" 500 :=
  classify_writes_key_ttl_and_ok envOne "component" 67 "tok" 500
    (Or.inr ⟨demoPredictor, rfl⟩)

/-- C9: if at least one record was fetched but the model load fails (an
unregistered name or a deserialization failure), the invocation raises
that error and performs no result-store write at all. -/
theorem classify_load_failure_writes_nothing (env : ClassifyEnv)
    (name : String) (id : Int) (tok : String) (exp : Nat) (e : Err)
    (hb : env.bugs ≠ [])
    (he : load_model env.backend name = Except.error e) :
    (classify_bug env name id tok exp).1 = Except.error e
    ∧ (classify_bug env name id tok exp).2.filter isStoreWriteEv = [] := by
  have hb2 := isEmpty_false_of_ne_nil env.bugs hb
  constructor <;> simp [classify_bug, hb2, he, isStoreWriteEv]

/-- C9 witness: one record, a backend whose handler fails to
deserialize. -/
theorem classify_load_failure_writes_nothing_witness :
    (classify_bug envOneFail "regression" 99 "tok" 500).1
      = Except.error Err.modelLoadFailed
    ∧ (classify_bug envOneFail "regression" 99 "tok" 500).2.filter
        isStoreWriteEv = [] :=
  classify_load_failure_writes_nothing envOneFail "regression" 99 "tok" 500
    Err.modelLoadFailed (by decide) rfl

/-- C1 counterexample: a concrete invocation with one record and a
registered model loads the model and succeeds, yet its trace contains no
artifact-resolution operation (no fingerprint query, no download, no
decompression, no fingerprint write): `classify_bug` never calls
`retrieve_model`. -/
theorem classify_loads_without_resolve_example :
    envOne.bugs ≠ []
    ∧ Ev.loadModel "component" ∈ (classify_bug envOne "component" 67 "tok").2
    ∧ (classify_bug envOne "component" 67 "tok").2.filter
        isArtifactResolutionEv = []
    ∧ (classify_bug envOne "component" 67 "tok").1 = Except.ok "OK" := by
  refine ⟨by decide, ?_, ?_, rfl⟩ <;>
    simp [classify_bug, envOne, backendDemo, load_model, MODELS_NAMES,
      isArtifactResolutionEv]

/-- C1 (amended): the pipeline never invokes the artifact-resolution step:
its trace contains no fingerprint query, download, decompression or
fingerprint write, and on a non-empty record set it loads the model
directly from the fixed local path. `retrieve_model` is a separate
operation that `classify_bug` does not call. -/
theorem classify_never_resolves_artifact (env : ClassifyEnv) (name : String)
    (id : Int) (tok : String) (exp : Nat) :
    (classify_bug env name id tok exp).2.filter isArtifactResolutionEv = []
    ∧ (env.bugs ≠ [] →
        Ev.loadModel name ∈ (classify_bug env name id tok exp).2) := by
  by_cases hb : env.bugs.isEmpty
  · constructor
    · simp [classify_bug, hb, isArtifactResolutionEv]
    · intro hne
      exact absurd (List.isEmpty_iff.mp hb) hne
  · cases hm : load_model env.backend name with
    | error e =>
      constructor
      · simp [classify_bug, hb, hm, isArtifactResolutionEv]
      · intro hne
        simp [classify_bug, hb, hm]
    | ok m =>
      constructor
      · simp [classify_bug, hb, hm, isArtifactResolutionEv]
      · intro hne
        simp [classify_bug, hb, hm]

/-- C1 witness: concrete non-empty invocation of the amended property. -/
theorem classify_never_resolves_artifact_witness :
    (classify_bug envOne "regression" 12 "tok" 500).2.filter
      isArtifactResolutionEv = []
    ∧ Ev.loadModel "regression"
        ∈ (classify_bug envOne "regression" 12 "tok" 500).2 :=
  ⟨(classify_never_resolves_artifact envOne "regression" 12 "tok" 500).1,
   (classify_never_resolves_artifact envOne "regression" 12 "tok" 500).2
     (by decide)⟩

/-- C2 counterexample: with the spec's demo row [0.1, 0.7, 0.2] the
published value has a flat probs sequence, but its indexes field is the
bare integer 1 and its suggestions field the bare string "label1" —
scalars, not sequences, because the source indexes with `[0]` into the
one-dimensional `argmax` and label arrays. -/
theorem classify_publishes_scalar_indexes_example :
    setValue? (classify_bug envOne "component" 67 "tok").2
      = some (Json.obj
          [("probs", Json.arr
              [Json.num ((1 : ℚ)/10), Json.num ((7 : ℚ)/10),
               Json.num ((2 : ℚ)/10)]),
           ("indexes", Json.int 1),
           ("suggestions", Json.str "label1")])
    ∧ Json.isArr (Json.int 1) = false
    ∧ Json.isArr (Json.str "label1") = false := by
  refine ⟨?_, rfl, rfl⟩
  simp [classify_bug, envOne, backendDemo, load_model, MODELS_NAMES,
    demoPredictor, setValue?]
  have ha : argmaxIdx [(10 : ℚ)⁻¹, (7 : ℚ)/10, (2 : ℚ)/10] = 1 := by
    norm_num [argmaxIdx, argmaxAux]
  rw [ha]
  exact ⟨rfl, by decide⟩

/-- C2 (amended): for every classified invocation the published value is
the object whose probs field is the flat sequence of the first record's
per-class probabilities, whose indexes field is the single integer argmax
of that row, and whose suggestions field is the single decoded label of
that argmax — the latter two are scalars, not sequences. -/
theorem classify_publishes_first_row_scalars (env : ClassifyEnv)
    (name : String) (id : Int) (tok : String) (exp : Nat) (m : Predictor)
    (hb : env.bugs ≠ [])
    (hm : load_model env.backend name = Except.ok m) :
    Ev.storeSet (redis_key name id)
      (Json.obj
        [("probs",
          Json.arr (((m.classifyProbs env.bugs).headD []).map Json.num)),
         ("indexes",
          Json.int (argmaxIdx ((m.classifyProbs env.bugs).headD []) : Nat)),
         ("suggestions",
          Json.str (m.label
            (argmaxIdx ((m.classifyProbs env.bugs).headD []))))])
      ∈ (classify_bug env name id tok exp).2
    ∧ Json.isArr
        (Json.int (argmaxIdx ((m.classifyProbs env.bugs).headD []) : Nat))
        = false
    ∧ Json.isArr
        (Json.str (m.label
          (argmaxIdx ((m.classifyProbs env.bugs).headD []))))
        = false := by
  have hb2 := isEmpty_false_of_ne_nil env.bugs hb
  have hprobs : m.classifyProbs env.bugs ≠ [] := by
    intro h0
    have hlen := m.rowPerRecord env.bugs
    rw [h0] at hlen
    exact hb (List.length_eq_zero.mp hlen.symm)
  refine ⟨?_, rfl, rfl⟩
  simp [classify_bug, hb2, hm]
  rcases hp : m.classifyProbs env.bugs with _ | ⟨row, rest⟩
  · exact absurd hp hprobs
  · simp [hp]

/-- C2 witness: the amended property at the demo environment. -/
theorem classify_publishes_first_row_scalars_witness :
    Ev.storeSet (redis_key "component" 67)
      (Json.obj
        [("probs",
          Json.arr (((demoPredictor.classifyProbs envOne.bugs).headD
            []).map Json.num)),
         ("indexes",
          Json.int (argmaxIdx
            ((demoPredictor.classifyProbs envOne.bugs).headD []) : Nat)),
         ("suggestions",
          Json.str (demoPredictor.label (argmaxIdx
            ((demoPredictor.classifyProbs envOne.bugs).headD []))))])
      ∈ (classify_bug envOne "component" 67 "tok" 500).2
    ∧ Json.isArr (Json.int (argmaxIdx
        ((demoPredictor.classifyProbs envOne.bugs).headD []) : Nat))
        = false
    ∧ Json.isArr (Json.str (demoPredictor.label (argmaxIdx
        ((demoPredictor.classifyProbs envOne.bugs).headD []))))
        = false :=
  classify_publishes_first_row_scalars envOne "component" 67 "tok" 500
    demoPredictor (by decide) rfl

/-- C3 counterexample: for the unregistered name "notamodel" with zero
records, classification does not fail at all — it returns "OK" and
writes the unavailable entry to the result store. -/
theorem unknown_model_empty_branch_succeeds_example :
    "notamodel" ∉ MODELS_NAMES
    ∧ (classify_bug envEmpty "notamodel" 5 "tok").1 = Except.ok "OK"
    ∧ Ev.storeSet (redis_key "notamodel" 5)
        (Json.obj [("available", Json.bool false)])
        ∈ (classify_bug envEmpty "notamodel" 5 "tok").2 := by
  refine ⟨by decide, rfl, ?_⟩
  simp [classify_bug, envEmpty]

/-- C3 (amended): an unregistered model name makes classification fail
with `UnknownModel` only on the non-empty-record branch, at model-load
time — after the record fetch — and then without any result-store write;
with zero records classification succeeds. Resolution does not check
registration: it performs the remote fingerprint query for any name and
never fails with `UnknownModel`. -/
theorem unknown_model_fails_only_at_load (name : String)
    (h : name ∉ MODELS_NAMES) :
    (∀ env id tok exp, ClassifyEnv.bugs env ≠ ([] : List Record) →
        (classify_bug env name id tok exp).1
          = Except.error Err.unknownModel
        ∧ (classify_bug env name id tok exp).2.filter isStoreWriteEv = [])
    ∧ (∀ env id tok exp, ClassifyEnv.bugs env = ([] : List Record) →
        (classify_bug env name id tok exp).1 = Except.ok "OK")
    ∧ (∀ decomp remote fs,
        Ev.headRequest (model_url name)
          ∈ (retrieve_model decomp remote name fs).2.2
        ∧ (retrieve_model decomp remote name fs).1
            ≠ Except.error Err.unknownModel) := by
  have hload : ∀ backend,
      load_model backend name = Except.error Err.unknownModel := by
    intro backend
    simp [load_model, h]
  refine ⟨?_, ?_, ?_⟩
  · intro env id tok exp hb
    have hb2 := isEmpty_false_of_ne_nil env.bugs hb
    constructor <;>
      simp [classify_bug, hb2, hload env.backend, isStoreWriteEv]
  · intro env id tok exp hb
    simp [classify_bug, hb]
  · intro decomp remote fs
    by_cases ha : remote.available = true
    · by_cases he : fs.etagFile = some remote.etag
      · constructor <;> simp [retrieve_model, ha, he]
      · cases hd : decomp remote.compressed <;> constructor <;>
          simp [retrieve_model, ha, he, hd]
    · constructor <;> simp [retrieve_model, ha]

/-- C3 witness: the amended property at the unregistered name
"othermodel", on a one-record environment, an empty environment and a
concrete resolve run. -/
theorem unknown_model_fails_only_at_load_witness :
    ((classify_bug envOneFail "othermodel" 3 "tok" 500).1
        = Except.error Err.unknownModel
      ∧ (classify_bug envOneFail "othermodel" 3 "tok" 500).2.filter
          isStoreWriteEv = [])
    ∧ (classify_bug envEmpty "othermodel" 3 "tok" 500).1 = Except.ok "OK"
    ∧ (Ev.headRequest (model_url "othermodel")
          ∈ (retrieve_model dOk remA "othermodel" fsEmpty).2.2
       ∧ (retrieve_model dOk remA "othermodel" fsEmpty).1
           ≠ Except.error Err.unknownModel) :=
  ⟨(unknown_model_fails_only_at_load "othermodel" (by decide)).1
      envOneFail 3 "tok" 500 (by decide),
   (unknown_model_fails_only_at_load "othermodel" (by decide)).2.1
      envEmpty 3 "tok" 500 rfl,
   (unknown_model_fails_only_at_load "othermodel" (by decide)).2.2
      dOk remA fsEmpty⟩

end BugbugHttp
